import Mathlib

/-!
Shallow embedding of `src/utils.py` (cat0ne/aws_utils): helper functions for
reading/writing CSV, Parquet and pickled objects on an S3-like object store,
and the `PickleS3` wrapper class.

The remote object store is modelled as an association list from
(bucket, key) pairs to byte sequences; a put prepends, so lookups see the
most recent write (last-write-wins).  Python exceptions are modelled with
`Except`: an `assert` that fails raises `AssertionError`, a missing key in a
`get_object`/`Object(...).get()` call raises the store's not-found error.
External collaborators (the pickle serializer, the boto3 store client) are
passed in as explicit function records, mirroring the fact that the source
only calls them through their public get/put and dump/loads interfaces.
-/

/-- A byte sequence (the payload of one stored object). -/
abbrev Bytes := List Nat

/-- Errors raised by the underlying store (boto3 / botocore client errors). -/
inductive S3Err where
  | noSuchKey (bucket key : String)
  | accessDenied
  | networkFailure
  deriving DecidableEq, Repr

/-- Python-level errors surfaced by the functions of `utils.py`. -/
inductive PyErr where
  | assertionError
  | s3Error (e : S3Err)
  | pickleError
  | unpickleError
  | valueError
  deriving DecidableEq, Repr

/-- The state of the remote object store: newest writes first. -/
abbrev Store := List ((String × String) × Bytes)

/-- Content currently stored at (bucket, key), if any. -/
def Store.get (st : Store) (bucket key : String) : Option Bytes :=
  (st.find? (fun e => e.1 = (bucket, key))).map (·.2)

/-- A put-object: stores `v` at (bucket, key), shadowing any earlier write. -/
def Store.put (st : Store) (bucket key : String) (v : Bytes) : Store :=
  ((bucket, key), v) :: st

/-- The boto3 store client as seen by `utils.py`: a put primitive
(`Object(bucket, key).put(Body=...)`) and a get primitive
(`get_object` / `Object(bucket, key).get()["Body"].read()`).  Both may fail
with a `PyErr`; `get` is read-only by its type, `put` returns the new store
state. -/
structure S3Backend where
  putObject : Store → String → String → Bytes → Except PyErr Store
  getObject : Store → String → String → Except PyErr Bytes

/-- The fault-free boto3 client: put always succeeds, get fails exactly on a
missing key with the store's not-found error. -/
def S3Backend.default : S3Backend where
  putObject := fun st bucket key v => .ok (st.put bucket key v)
  getObject := fun st bucket key =>
    match st.get bucket key with
    | some v => .ok v
    | none => .error (.s3Error (.noSuchKey bucket key))

/-- The pickle module as seen by `utils.py`: `dumps` is
`pk.dump(model, io_buffer); io_buffer.getvalue()`, `loads` is `pk.loads`.
Either side may fail (unpicklable object, corrupt payload). -/
structure Pickler (α : Type) where
  dumps : α → Except PyErr Bytes
  loads : Bytes → Except PyErr α

/-- `pkl` is a faithful serializer: deserializing a successfully produced
payload reconstructs the original object. -/
def Pickler.Inverts {α : Type} (pkl : Pickler α) : Prop :=
  ∀ (o : α) (b : Bytes), pkl.dumps o = .ok b → pkl.loads b = .ok o

/-- `class PickleS3`: binds a bucket name.  The constructor's
`assert bucket is not None` is modelled by `PickleS3.init`. -/
structure PickleS3 where
  bucket : String
  deriving DecidableEq, Repr

/-- `PickleS3.__init__(self, bucket=None)`: `assert bucket is not None`,
then `self.bucket = bucket`.  Only the absent (`None`) reference fails. -/
def PickleS3.init (bucket : Option String) : Except PyErr PickleS3 :=
  match bucket with
  | none => .error .assertionError
  | some b => .ok ⟨b⟩

/-- `PickleS3.dump(self, model, path)`: serialize `model` into a buffer,
then one `Object(self.bucket, path).put(Body=...)`. -/
def PickleS3.dump {α : Type} (p : PickleS3) (be : S3Backend) (pkl : Pickler α)
    (model : α) (path : String) (st : Store) : Except PyErr Store :=
  match pkl.dumps model with
  | .error e => .error e
  | .ok ioBufferValue => be.putObject st p.bucket path ioBufferValue

/-- `PickleS3.load(self, path)`: the bare `s3_resource.Object(self.bucket,
path)` statement builds a lazy object reference and discards it (no store
request), then `Object(self.bucket, path).get()["Body"].read()` fetches the
body and `pk.loads` deserializes it. -/
def PickleS3.load {α : Type} (p : PickleS3) (be : S3Backend) (pkl : Pickler α)
    (path : String) (st : Store) : Except PyErr α :=
  let _objectRef := (p.bucket, path)
  match be.getObject st p.bucket path with
  | .error e => .error e
  | .ok bodyString => pkl.loads bodyString

/-- The variant of `load` that omits the bare
`s3_resource.Object(self.bucket, path)` statement. -/
def PickleS3.loadNoRefetch {α : Type} (p : PickleS3) (be : S3Backend)
    (pkl : Pickler α) (path : String) (st : Store) : Except PyErr α :=
  match be.getObject st p.bucket path with
  | .error e => .error e
  | .ok bodyString => pkl.loads bodyString

/-- A concrete faithful serializer over `Nat`, used to instantiate the
round-trip theorems at executable inputs. -/
def natPickler : Pickler Nat where
  dumps := fun n => .ok [n]
  loads := fun b =>
    match b with
    | [n] => .ok n
    | _ => .error .unpickleError

theorem natPickler_inverts : natPickler.Inverts := by
  intro o b h
  simp only [natPickler, Except.ok.injEq] at h
  subst h
  rfl

/-- An S3 client whose requests all fail with access-denied, used to
instantiate the error-propagation theorem. -/
def denyBackend : S3Backend where
  putObject := fun _ _ _ _ => .error (.s3Error .accessDenied)
  getObject := fun _ _ _ => .error (.s3Error .accessDenied)

/-- The metadata of a parquet file as exposed by
`fastparquet.ParquetFile(...)`: its column names (`pf.dtypes` iterates over
column names). -/
structure ParquetFile where
  dtypes : List String
  deriving DecidableEq, Repr

/-- A pandas dataframe, as produced by the two read paths of `utils.py`:
`pd.read_csv(BytesIO(body), sep, compression)` or
`pf.to_pandas(columns)`. -/
inductive DataFrame where
  | fromCsv (raw : Bytes) (sep : String) (gzip : Bool)
  | fromParquet (pf : ParquetFile) (columns : List String)
  deriving DecidableEq, Repr

/-- Observable side effects of `read_csv_s3`: a `get_object` request to the
store, or a line written by `print`. -/
inductive Effect where
  | getObject (bucket key : String)
  | printed (msg : String)
  deriving DecidableEq, Repr

/-- Python's `c in s` membership test on a string, over its characters. -/
def pyContains (s : String) (c : Char) : Bool := s.data.contains c

/-- Python's `s.startswith(pre)`. -/
def pyStartsWith (s pre : String) : Bool := pre.data.isPrefixOf s.data

/-- Python's `s.endswith(suf)`. -/
def pyEndsWith (s suf : String) : Bool := suf.data.isSuffixOf s.data

/-- The fixed text printed by the unrecognized-compression branch of
`read_csv_s3` (the compression value is appended by `print`). -/
def csvCompressionErrorMsg : String :=
  "Error in read_csv_s3: compression not recognized/implemented.\nCSV ompression: "

/-- `read_csv_s3(s3_bucket, path, sep, compression)`: asserts on bucket and
path, then branches on `compression`: `'gzip'` and `None` issue one
`get_object` and parse the body; anything else prints a message and falls
off the function (returning `None`).  The first component collects the
effects performed, the second is the returned value (`none` models Python's
implicit `return None`). -/
def read_csv_s3 (s3_bucket path sep : String) (compression : Option String)
    (st : Store) : List Effect × Except PyErr (Option DataFrame) :=
  if pyContains s3_bucket '/' then ([], .error .assertionError)
  else if pyStartsWith path ("/") then ([], .error .assertionError)
  else if compression = some "gzip" then
    if pyEndsWith path (".csv.gz") then
      match Store.get st s3_bucket path with
      | some body =>
          ([.getObject s3_bucket path], .ok (some (.fromCsv body sep true)))
      | none =>
          ([.getObject s3_bucket path],
           .error (.s3Error (.noSuchKey s3_bucket path)))
    else ([], .error .assertionError)
  else if compression = none then
    if pyEndsWith path (".csv") then
      match Store.get st s3_bucket path with
      | some body =>
          ([.getObject s3_bucket path], .ok (some (.fromCsv body sep false)))
      | none =>
          ([.getObject s3_bucket path],
           .error (.s3Error (.noSuchKey s3_bucket path)))
    else ([], .error .assertionError)
  else
    ([.printed (csvCompressionErrorMsg ++ compression.getD "")], .ok none)

/-- `read_parquet_s3(s3_bucket, path, columns, skip_missing_colums)`:
asserts on bucket and path, opens the parquet file (its metadata `pf` is
the external collaborator's answer), then selects columns: an explicit list
is checked against `pf.dtypes` (`ValueError` on missing columns unless
`skip_missing_colums`), while `columns=None` takes every file column whose
name is not `"autoFilledFields"`. -/
def read_parquet_s3 (s3_bucket path : String) (columns : Option (List String))
    (skip_missing_colums : Bool) (pf : ParquetFile) : Except PyErr DataFrame :=
  if pyContains s3_bucket '/' then .error .assertionError
  else if pyStartsWith path ("/") then .error .assertionError
  else if !pyEndsWith path (".parquet") then .error .assertionError
  else
    match columns with
    | some cols =>
        let missing_columns := cols.filter (fun c => !pf.dtypes.contains c)
        if !missing_columns.isEmpty && !skip_missing_colums then
          .error .valueError
        else
          .ok (.fromParquet pf (cols.filter (fun c => !missing_columns.contains c)))
    | none =>
        .ok (.fromParquet pf (pf.dtypes.filter (fun c => c != "autoFilledFields")))

/-- Looking up the key just written returns the written payload. -/
theorem Store.get_put_same (st : Store) (b k : String) (v : Bytes) :
    (st.put b k v).get b k = some v := by
  simp [Store.put, Store.get, List.find?]

/-- Looking up any other (bucket, key) pair is unaffected by a put. -/
theorem Store.get_put_other (st : Store) (b k b' k' : String) (v : Bytes)
    (h : (b', k') ≠ (b, k)) : (st.put b k v).get b' k' = st.get b' k' := by
  simp only [Store.put, Store.get, List.find?]
  have : ((b, k) = (b', k')) = False := by
    simp only [eq_iff_iff, iff_false]
    exact fun hc => h hc.symm
  simp [this]

/-- C1: Round-trip — for every faithful serializer, every serializable
object `o` and every key `k`, `load k` after `dump o k` on the same wrapper
returns the original object `o`. -/
theorem pickleS3_roundtrip {α : Type} (pkl : Pickler α) (p : PickleS3)
    (o : α) (k : String) (st : Store) (bs : Bytes)
    (hinv : pkl.Inverts) (hser : pkl.dumps o = .ok bs) :
    ∃ st', p.dump S3Backend.default pkl o k st = .ok st' ∧
      p.load S3Backend.default pkl k st' = .ok o := by
  refine ⟨st.put p.bucket k bs, ?_, ?_⟩
  · simp [PickleS3.dump, hser, S3Backend.default]
  · simp [PickleS3.load, S3Backend.default, Store.get_put_same]
    exact hinv o bs hser

/-- Witness for C1 at a concrete serializer, object, key and store. -/
theorem pickleS3_roundtrip_witness :
    ∃ st', PickleS3.dump ⟨"models"⟩ S3Backend.default natPickler 5 "m.pkl" [] = .ok st' ∧
      PickleS3.load ⟨"models"⟩ S3Backend.default natPickler "m.pkl" st' = .ok 5 :=
  pickleS3_roundtrip natPickler ⟨"models"⟩ 5 "m.pkl" [] [5] natPickler_inverts rfl

/-- C2 counterexample: constructing `PickleS3` with the non-null but empty
bucket reference `""` succeeds — the constructor only checks
`bucket is not None`, so the claimed failure on empty references is false. -/
theorem pickleS3_init_empty_bucket_succeeds :
    PickleS3.init (some "") = .ok ⟨""⟩ := rfl

/-- C2 (amended): construction fails with an assertion (configuration)
error exactly when the bucket reference is absent (`None`), before any
network call (the constructor touches no store); every non-null reference,
the empty string included, is accepted and bound. -/
theorem pickleS3_init_spec :
    PickleS3.init none = .error .assertionError ∧
    ∀ b : String, PickleS3.init (some b) = .ok ⟨b⟩ :=
  ⟨rfl, fun _ => rfl⟩

/-- Witness for C2's amended theorem at a concrete bucket name. -/
theorem pickleS3_init_spec_witness :
    PickleS3.init none = .error .assertionError ∧
    PickleS3.init (some "models") = .ok ⟨"models"⟩ :=
  ⟨pickleS3_init_spec.1, pickleS3_init_spec.2 "models"⟩

/-- C3: Overwrite / last-write-wins — dumping `o1` then `o2` to the same
key makes a subsequent `load` return `o2`; it returns `o1` only if the two
objects coincide. -/
theorem pickleS3_overwrite {α : Type} (pkl : Pickler α) (p : PickleS3)
    (o1 o2 : α) (k : String) (st : Store) (b1 b2 : Bytes)
    (hinv : pkl.Inverts) (h1 : pkl.dumps o1 = .ok b1)
    (h2 : pkl.dumps o2 = .ok b2) :
    ∃ st1 st2, p.dump S3Backend.default pkl o1 k st = .ok st1 ∧
      p.dump S3Backend.default pkl o2 k st1 = .ok st2 ∧
      p.load S3Backend.default pkl k st2 = .ok o2 ∧
      (o1 ≠ o2 → p.load S3Backend.default pkl k st2 ≠ .ok o1) := by
  refine ⟨st.put p.bucket k b1, (st.put p.bucket k b1).put p.bucket k b2,
    ?_, ?_, ?_, ?_⟩
  · simp [PickleS3.dump, h1, S3Backend.default]
  · simp [PickleS3.dump, h2, S3Backend.default]
  · simp [PickleS3.load, S3Backend.default, Store.get_put_same]
    exact hinv o2 b2 h2
  · intro hne hload
    have hl2 : PickleS3.load p S3Backend.default pkl k
        ((st.put p.bucket k b1).put p.bucket k b2) = .ok o2 := by
      simp [PickleS3.load, S3Backend.default, Store.get_put_same]
      exact hinv o2 b2 h2
    rw [hl2] at hload
    exact hne (Except.ok.inj hload).symm

/-- Witness for C3 at concrete objects 1 and 2 under the same key. -/
theorem pickleS3_overwrite_witness :
    ∃ st1 st2,
      PickleS3.dump ⟨"b"⟩ S3Backend.default natPickler 1 "k.pkl" [] = .ok st1 ∧
      PickleS3.dump ⟨"b"⟩ S3Backend.default natPickler 2 "k.pkl" st1 = .ok st2 ∧
      PickleS3.load ⟨"b"⟩ S3Backend.default natPickler "k.pkl" st2 = .ok 2 ∧
      ((1 : Nat) ≠ 2 →
        PickleS3.load ⟨"b"⟩ S3Backend.default natPickler "k.pkl" st2 ≠ .ok 1) :=
  pickleS3_overwrite natPickler ⟨"b"⟩ 1 2 "k.pkl" [] [1] [2]
    natPickler_inverts rfl rfl

/-- C4: Missing key — `load` on a key holding nothing in the bound bucket
fails with the store's not-found error; it never returns a value. -/
theorem pickleS3_load_missing_key {α : Type} (pkl : Pickler α) (p : PickleS3)
    (k : String) (st : Store) (hmiss : st.get p.bucket k = none) :
    p.load S3Backend.default pkl k st =
      .error (.s3Error (.noSuchKey p.bucket k)) := by
  simp [PickleS3.load, S3Backend.default, hmiss]

/-- Witness for C4 on the empty store. -/
theorem pickleS3_load_missing_key_witness :
    PickleS3.load ⟨"b"⟩ S3Backend.default natPickler "absent.pkl" [] =
      .error (.s3Error (.noSuchKey "b" "absent.pkl")) :=
  pickleS3_load_missing_key natPickler ⟨"b"⟩ "absent.pkl" [] rfl

/-- C5: Error propagation without translation or retry — whatever error the
serializer or the store client raises during `dump` or `load` is surfaced
to the caller as-is: a serialization failure aborts `dump` with that exact
error, a failing put aborts `dump` with the put's exact error, a failing
get aborts `load` with the get's exact error, and a deserialization failure
aborts `load` with that exact error.  Nothing is caught, retried or
recovered. -/
theorem pickleS3_error_propagation {α : Type} (pkl : Pickler α)
    (be : S3Backend) (p : PickleS3) (o : α) (k : String) (st : Store)
    (e : PyErr) :
    (pkl.dumps o = .error e → p.dump be pkl o k st = .error e) ∧
    (∀ bs, pkl.dumps o = .ok bs → be.putObject st p.bucket k bs = .error e →
      p.dump be pkl o k st = .error e) ∧
    (be.getObject st p.bucket k = .error e → p.load be pkl k st = .error e) ∧
    (∀ bs, be.getObject st p.bucket k = .ok bs → pkl.loads bs = .error e →
      p.load be pkl k st = .error e) := by
  refine ⟨fun h => ?_, fun bs hok hput => ?_, fun h => ?_, fun bs hok hlds => ?_⟩
  · simp [PickleS3.dump, h]
  · simp [PickleS3.dump, hok, hput]
  · simp [PickleS3.load, h]
  · simp [PickleS3.load, hok, hlds]

/-- Witness for C5: an access-denied get is surfaced unmodified by `load`. -/
theorem pickleS3_error_propagation_witness :
    PickleS3.load ⟨"b"⟩ denyBackend natPickler "k.pkl" [] =
      .error (.s3Error .accessDenied) :=
  (pickleS3_error_propagation natPickler denyBackend ⟨"b"⟩ 0 "k.pkl" []
    (.s3Error .accessDenied)).2.2.1 rfl

/-- C6: Frame of `dump` — a successful dump performs exactly one put: the
resulting store is `st.put bucket k bytes`, and every other (bucket, key)
pair reads back exactly what it held before the call. -/
theorem pickleS3_dump_frame {α : Type} (pkl : Pickler α) (p : PickleS3)
    (o : α) (k : String) (st : Store) (bs : Bytes)
    (hser : pkl.dumps o = .ok bs) :
    p.dump S3Backend.default pkl o k st = .ok (st.put p.bucket k bs) ∧
    ∀ b' k', (b', k') ≠ (p.bucket, k) →
      (st.put p.bucket k bs).get b' k' = st.get b' k' := by
  constructor
  · simp [PickleS3.dump, hser, S3Backend.default]
  · intro b' k' h
    exact Store.get_put_other st p.bucket k b' k' bs h

/-- Witness for C6 on a store holding one unrelated entry. -/
theorem pickleS3_dump_frame_witness :
    PickleS3.dump ⟨"b"⟩ S3Backend.default natPickler 7 "k.pkl"
        [(("b", "other.pkl"), [9])] =
      .ok (Store.put [(("b", "other.pkl"), [9])] "b" "k.pkl" [7]) ∧
    Store.get (Store.put [(("b", "other.pkl"), [9])] "b" "k.pkl" [7])
        "b" "other.pkl" = some [9] := by
  have h := pickleS3_dump_frame natPickler ⟨"b"⟩ 7 "k.pkl"
    [(("b", "other.pkl"), [9])] [7] rfl
  exact ⟨h.1, by rw [h.2 "b" "other.pkl" (by decide)]; rfl⟩

/-- C7: Wrapper-state invariant — the wrapper's entire state is the bucket
bound at construction: two wrappers with the same bucket are the same
wrapper, and every `dump`/`load` outcome is a function only of the bucket,
the call's own arguments and the store's contents (no session, connection
or cache survives between calls, and no call mutates the wrapper). -/
theorem pickleS3_stateless {α : Type} (pkl : Pickler α) (be : S3Backend)
    (p q : PickleS3) (o : α) (k : String) (st : Store)
    (hb : p.bucket = q.bucket) :
    p = q ∧ p.dump be pkl o k st = q.dump be pkl o k st ∧
      p.load be pkl k st = q.load be pkl k st := by
  obtain ⟨pb⟩ := p
  obtain ⟨qb⟩ := q
  simp only [PickleS3.mk.injEq] at hb ⊢
  subst hb
  exact ⟨rfl, rfl, rfl⟩

/-- Witness for C7 at two identically-constructed wrappers. -/
theorem pickleS3_stateless_witness :
    (⟨"b"⟩ : PickleS3) = ⟨"b"⟩ ∧
    PickleS3.dump ⟨"b"⟩ S3Backend.default natPickler 3 "k.pkl" [] =
      PickleS3.dump ⟨"b"⟩ S3Backend.default natPickler 3 "k.pkl" [] ∧
    PickleS3.load ⟨"b"⟩ S3Backend.default natPickler "k.pkl" [] =
      PickleS3.load ⟨"b"⟩ S3Backend.default natPickler "k.pkl" [] :=
  pickleS3_stateless natPickler S3Backend.default ⟨"b"⟩ ⟨"b"⟩ 3 "k.pkl" [] rfl

/-- C8: the bare `s3_resource.Object(self.bucket, path)` statement in
`load` builds a lazy object reference and performs no store request, so
`load` is observationally equivalent to the variant that omits it: for
every backend, serializer, wrapper, key and store state both return the
same result, and neither touches the store (the get primitive is read-only
by its type). -/
theorem pickleS3_load_refetch_equiv {α : Type} (pkl : Pickler α)
    (be : S3Backend) (p : PickleS3) (k : String) (st : Store) :
    p.load be pkl k st = p.loadNoRefetch be pkl k st := rfl

/-- Witness for C8 at a concrete store state. -/
theorem pickleS3_load_refetch_equiv_witness :
    PickleS3.load ⟨"b"⟩ S3Backend.default natPickler "k.pkl"
        [(("b", "k.pkl"), [4])] =
      PickleS3.loadNoRefetch ⟨"b"⟩ S3Backend.default natPickler "k.pkl"
        [(("b", "k.pkl"), [4])] :=
  pickleS3_load_refetch_equiv natPickler S3Backend.default ⟨"b"⟩ "k.pkl"
    [(("b", "k.pkl"), [4])]

/-- C9: with `columns=None`, `read_parquet_s3` silently drops any column
named `"autoFilledFields"`: the returned dataframe holds exactly the file's
columns minus that name (so not all columns whenever the file has it),
while an explicit `columns` list whose names all exist in the file is
passed through with no such exclusion. -/
theorem read_parquet_autoFilledFields (pf : ParquetFile)
    (s3_bucket path : String) (skip : Bool)
    (hb : pyContains s3_bucket '/' = false)
    (hp : pyStartsWith path ("/") = false)
    (he : pyEndsWith path (".parquet") = true) :
    read_parquet_s3 s3_bucket path none skip pf =
      .ok (.fromParquet pf (pf.dtypes.filter (fun c => c != "autoFilledFields"))) ∧
    "autoFilledFields" ∉ pf.dtypes.filter (fun c => c != "autoFilledFields") ∧
    ("autoFilledFields" ∈ pf.dtypes →
      pf.dtypes.filter (fun c => c != "autoFilledFields") ≠ pf.dtypes) ∧
    ∀ cols, (∀ c ∈ cols, pf.dtypes.contains c = true) →
      read_parquet_s3 s3_bucket path (some cols) skip pf =
        .ok (.fromParquet pf cols) := by
  have hnotmem : "autoFilledFields" ∉
      pf.dtypes.filter (fun c => c != "autoFilledFields") := by
    intro hmem
    have := (List.mem_filter.mp hmem).2
    simp at this
  refine ⟨?_, hnotmem, ?_, ?_⟩
  · simp [read_parquet_s3, hb, hp, he]
  · intro hmem heq
    rw [heq] at hnotmem
    exact hnotmem hmem
  · intro cols hall
    have hmissing : cols.filter (fun c => !pf.dtypes.contains c) = [] := by
      rw [List.filter_eq_nil_iff]
      intro c hc
      have h := hall c hc
      simp at h
      simp [h]
    simp only [read_parquet_s3, hb, hp, he, hmissing]
    simp

/-- Witness for C9 on a two-column file holding `"autoFilledFields"`. -/
theorem read_parquet_autoFilledFields_witness :
    read_parquet_s3 "b" "x.parquet" none false ⟨["a", "autoFilledFields"]⟩ =
      .ok (.fromParquet ⟨["a", "autoFilledFields"]⟩ ["a"]) ∧
    read_parquet_s3 "b" "x.parquet" (some ["a", "autoFilledFields"]) false
        ⟨["a", "autoFilledFields"]⟩ =
      .ok (.fromParquet ⟨["a", "autoFilledFields"]⟩ ["a", "autoFilledFields"]) := by
  have h := read_parquet_autoFilledFields ⟨["a", "autoFilledFields"]⟩
    "b" "x.parquet" false (by decide) (by decide) (by decide)
  exact ⟨by rw [h.1]; rfl, h.2.2.2 ["a", "autoFilledFields"] (by decide)⟩

/-- C10: for a compression argument that is neither `None` nor `'gzip'`,
`read_csv_s3` raises nothing and sends no request to the store — it prints
one diagnostic line and returns `None` (a silent failure at the public
interface); valid-bucket and valid-path hypotheses keep the two leading
asserts, which are independent of compression, out of the way. -/
theorem read_csv_unrecognized_compression (s3_bucket path sep c : String)
    (st : Store) (hb : pyContains s3_bucket '/' = false)
    (hp : pyStartsWith path ("/") = false) (hc : c ≠ "gzip") :
    read_csv_s3 s3_bucket path sep (some c) st =
      ([.printed (csvCompressionErrorMsg ++ c)], .ok none) ∧
    ∀ b k, Effect.getObject b k ∉ (read_csv_s3 s3_bucket path sep (some c) st).1 := by
  have hres : read_csv_s3 s3_bucket path sep (some c) st =
      ([.printed (csvCompressionErrorMsg ++ c)], .ok none) := by
    simp [read_csv_s3, hb, hp, hc]
  refine ⟨hres, ?_⟩
  intro b k hmem
  rw [hres] at hmem
  simp at hmem

/-- Witness for C10 at the unimplemented compression value `"zip"`. -/
theorem read_csv_unrecognized_compression_witness :
    read_csv_s3 "b" "x.csv" "," (some "zip") [] =
      ([.printed (csvCompressionErrorMsg ++ "zip")], .ok none) ∧
    Effect.getObject "b" "x.csv" ∉ (read_csv_s3 "b" "x.csv" "," (some "zip") []).1 :=
  have h := read_csv_unrecognized_compression "b" "x.csv" "," "zip" []
    (by decide) (by decide) (by decide)
  ⟨h.1, h.2 "b" "x.csv"⟩
